import Mathlib

/-!
Verification of the DarkPlay plugin runtime (`DarkPlay::Core::PluginManager`).

This file gives a shallow embedding of the plugin manager's registry and
lifecycle operations, translated from the C++ source (`PluginManager`
implementation and `core/PluginManager.h`), and proves or refutes the
specified properties about them.

Modelling decisions, each traceable to the source:

* The registry `std::unordered_map<QString, PluginInfo> m_loadedPlugins` is
  modelled as an association list `State = List (String × PluginInfo)`;
  `find`/`erase`/`emplace` become first-match lookup, first-match removal and
  append.
* A module on disk is described by a `Module` value recording what the
  loader and the instance would do: whether `QPluginLoader::instance()`
  yields a root object (`instanceOk`), whether `qobject_cast` to
  `Plugins::IPlugin` succeeds (`isIPlugin`), whether `name()`/`version()`
  throw inside `validatePlugin` (`metaThrows`), the reported `name` and
  `version`, and the behaviour of `initialize()` (`InitBeh`: returns true,
  returns false, throws a `std::exception`, or throws a non-`std` value —
  the code's `catch (const std::exception&)` versus `catch (...)` handlers
  distinguish the last two) and of `shutdown()` (`ShutBeh`, likewise).
* Each operation is a pure function returning an `OpResult`: the boolean
  the C++ method returns, the registry after the call, and the ordered
  trace of observable events.  The trace records lock transitions
  (`QWriteLocker`/`QReadLocker` construction, `unlock()`, `relock()`,
  destructor release) and every call into plugin code
  (`instance()`, `name()`, `version()`, `initialize()`, `shutdown()`),
  as well as the emitted Qt signals, in source order.
* Query methods (`availablePlugins`, `isPluginLoaded`, `isPluginEnabled`,
  the two counts) are `const` in C++ and only read under a `QReadLocker`;
  they are embedded as pure functions of the state, so that they cannot
  mutate the registry by construction.
* The embedding is single-threaded: each operation runs to completion.
  Lock-scope discipline is still expressible, as a property of the event
  trace.
-/

set_option autoImplicit false

namespace DarkPlay

/-- Behaviour of a plugin's `initialize()` call: return `true`, return
`false`, throw a `std::exception`, or throw a value not derived from
`std::exception` (caught only by `catch (...)`). -/
inductive InitBeh where
  | retTrue
  | retFalse
  | throwStd
  | throwOther
deriving DecidableEq

/-- Behaviour of a plugin's `shutdown()` call: return normally, throw a
`std::exception`, or throw a non-`std` value. -/
inductive ShutBeh where
  | ok
  | throwStd
  | throwOther
deriving DecidableEq

/-- Description of a module file as the loader and the contained plugin
instance would behave: `instanceOk` is whether `QPluginLoader::instance()`
returns non-null, `isIPlugin` whether the `qobject_cast` to
`Plugins::IPlugin` succeeds, `metaThrows` whether `name()`/`version()`
throw during validation, then the reported metadata and the lifecycle
behaviours. -/
structure Module where
  instanceOk : Bool
  isIPlugin : Bool
  metaThrows : Bool
  name : String
  version : String
  initBeh : InitBeh
  shutBeh : ShutBeh
deriving DecidableEq

/-- One registry record, mirroring `PluginManager::PluginInfo`: the stored
file path, the atomic `enabled` flag, and the plugin object together with
its loader handle (represented by the `Module` description; a record
holding `m` means the module handle of `m` is retained). -/
structure PluginInfo where
  filePath : String
  enabled : Bool
  module : Module
deriving DecidableEq

/-- The registry `m_loadedPlugins`, keyed by plugin name. -/
abbrev State := List (String × PluginInfo)

/-- Observable events of one operation, in order: lock transitions, calls
into plugin code, and emitted Qt signals. -/
inductive Ev where
  | acquireWrite
  | acquireRead
  | unlock
  | relock
  | callInstance
  | callName
  | callVersion
  | callInit
  | callShutdown
  | sigLoaded (n : String)
  | sigEnabled (n : String)
  | sigDisabled (n : String)
  | sigUnloaded (n : String)
  | sigError (n : String) (msg : String)
deriving DecidableEq

/-- Result of one public operation: the returned boolean, the registry
afterwards, and the event trace. -/
structure OpResult where
  ok : Bool
  state : State
  events : List Ev
deriving DecidableEq

/-- Registry membership test, `m_loadedPlugins.contains(name)`. -/
def containsName (s : State) (n : String) : Bool :=
  s.any (fun p => p.1 = n)

/-- Registry lookup, `m_loadedPlugins.find(name)` (first match). -/
def findEntry : State → String → Option PluginInfo
  | [], _ => none
  | (k, i) :: rest, n => if k = n then some i else findEntry rest n

/-- Registry removal, `m_loadedPlugins.erase(it)` (removes the found
entry). -/
def eraseEntry : State → String → State
  | [], _ => []
  | (k, i) :: rest, n => if k = n then rest else (k, i) :: eraseEntry rest n

/-- Update of the found entry's atomic `enabled` flag,
`it->second.enabled.store(b)`; all other fields and entries are untouched. -/
def setEnabled : State → String → Bool → State
  | [], _, _ => []
  | (k, i) :: rest, n, b =>
    if k = n then (k, ⟨i.filePath, b, i.module⟩) :: rest
    else (k, i) :: setEnabled rest n b

/-- Embedding of `PluginManager::validatePlugin`: false when
`name()`/`version()` throw (the `catch (...)` branch), otherwise requires
both reported strings non-empty. -/
def validatePlugin (m : Module) : Bool :=
  if m.metaThrows then false
  else !(m.name = "") && !(m.version = "")

/-- Plugin-code calls performed by `validatePlugin`: `name()` (which may
throw, ending the sequence) then `version()`. -/
def validateEvents (m : Module) : List Ev :=
  if m.metaThrows then [.callName]
  else [.callName, .callVersion]

/-- Embedding of `PluginManager::loadPlugin(filePath)`.  `m` describes the
module the loader finds at `filePath`.  The branches mirror the source: the
empty-path early return; `instance()` null; `qobject_cast` failure;
validation failure; the duplicate-name check under the write lock;
`locker.unlock()`; `initializePlugin` (signal wiring, then `initialize()`,
where returning false raises `std::runtime_error`, caught at the
`catch (const std::exception&)` of the load path, while a non-`std` throw
escapes to the outer `catch (...)`); `locker.relock()` and the `emplace`;
final unlock and the `pluginLoaded`/`pluginEnabled` signals. -/
def loadPlugin (s : State) (filePath : String) (m : Module) : OpResult :=
  if filePath = "" then
    ⟨false, s, [.sigError "" "Empty file path provided"]⟩
  else if !m.instanceOk then
    ⟨false, s, [.acquireWrite, .callInstance,
      .sigError "" ("Failed to load plugin from " ++ filePath), .unlock]⟩
  else if !m.isIPlugin then
    ⟨false, s, [.acquireWrite, .callInstance,
      .sigError "" ("Invalid plugin interface in " ++ filePath), .unlock]⟩
  else if !(validatePlugin m) then
    ⟨false, s, [.acquireWrite, .callInstance] ++ validateEvents m ++
      [.sigError "" ("Plugin validation failed for " ++ filePath), .unlock]⟩
  else if containsName s m.name then
    ⟨false, s, [.acquireWrite, .callInstance] ++ validateEvents m ++
      [.callName, .sigError m.name "Plugin already loaded", .unlock]⟩
  else
    match m.initBeh with
    | .retTrue =>
      ⟨true, s ++ [(m.name, ⟨filePath, true, m⟩)],
        [.acquireWrite, .callInstance] ++ validateEvents m ++
        [.callName, .unlock, .callInit, .relock, .unlock,
         .sigLoaded m.name, .sigEnabled m.name]⟩
    | .retFalse =>
      ⟨false, s,
        [.acquireWrite, .callInstance] ++ validateEvents m ++
        [.callName, .unlock, .callInit,
         .sigError m.name "Initialization failed: Plugin initialization failed"]⟩
    | .throwStd =>
      ⟨false, s,
        [.acquireWrite, .callInstance] ++ validateEvents m ++
        [.callName, .unlock, .callInit,
         .sigError m.name "Initialization failed: exception from plugin"]⟩
    | .throwOther =>
      ⟨false, s,
        [.acquireWrite, .callInstance] ++ validateEvents m ++
        [.callName, .unlock, .callInit,
         .sigError "" "Unknown error during plugin loading"]⟩

/-- Embedding of `PluginManager::unloadPlugin(pluginName)`: empty-name
early return (no events); lookup under the write lock; `locker.unlock()`;
`shutdown()` on the cast instance (skipped when the stored object does not
cast to `IPlugin`), with a `std::exception` caught and logged by the inner
handler while a non-`std` throw escapes to the outer `catch (...)` and
aborts the unload; `relock()`, re-find and erase; final unlock and the
`pluginUnloaded` signal. -/
def unloadPlugin (s : State) (n : String) : OpResult :=
  if n = "" then
    ⟨false, s, []⟩
  else
    match findEntry s n with
    | none => ⟨false, s, [.acquireWrite, .unlock]⟩
    | some info =>
      if !info.module.isIPlugin then
        ⟨true, eraseEntry s n,
          [.acquireWrite, .unlock, .relock, .unlock, .sigUnloaded n]⟩
      else
        match info.module.shutBeh with
        | .ok =>
          ⟨true, eraseEntry s n,
            [.acquireWrite, .unlock, .callShutdown, .relock, .unlock,
             .sigUnloaded n]⟩
        | .throwStd =>
          ⟨true, eraseEntry s n,
            [.acquireWrite, .unlock, .callShutdown,
             .sigError n "Shutdown error: exception from plugin",
             .relock, .unlock, .sigUnloaded n]⟩
        | .throwOther =>
          ⟨false, s,
            [.acquireWrite, .unlock, .callShutdown,
             .sigError n "Unknown error during unloading"]⟩

/-- Embedding of `PluginManager::enablePlugin(name)`: lookup under a read
lock; already-enabled fast path returns true without calling the plugin;
cast failure returns false; otherwise `locker.unlock()` then
`initialize()`, and on a true return the `enabled` flag is stored (with no
re-lock, as in the source) and `pluginEnabled` emitted; a false return
yields false with no error signal; a throw is caught by the
`std::exception` or `catch (...)` handler. -/
def enablePlugin (s : State) (n : String) : OpResult :=
  match findEntry s n with
  | none => ⟨false, s, [.acquireRead, .unlock]⟩
  | some info =>
    if info.enabled then
      ⟨true, s, [.acquireRead, .unlock]⟩
    else if !info.module.isIPlugin then
      ⟨false, s, [.acquireRead, .unlock]⟩
    else
      match info.module.initBeh with
      | .retTrue =>
        ⟨true, setEnabled s n true,
          [.acquireRead, .unlock, .callInit, .sigEnabled n]⟩
      | .retFalse =>
        ⟨false, s, [.acquireRead, .unlock, .callInit]⟩
      | .throwStd =>
        ⟨false, s, [.acquireRead, .unlock, .callInit,
          .sigError n "Enable failed: exception from plugin"]⟩
      | .throwOther =>
        ⟨false, s, [.acquireRead, .unlock, .callInit,
          .sigError n "Unknown error during enable"]⟩

/-- Embedding of `PluginManager::disablePlugin(name)`: lookup under a read
lock; already-disabled fast path returns true without calling the plugin;
cast failure returns false; otherwise `locker.unlock()` then `shutdown()`,
the flag store (no re-lock) and `pluginDisabled`; a throwing `shutdown()`
is caught by the outer handlers, so the flag is not flipped and false is
returned. -/
def disablePlugin (s : State) (n : String) : OpResult :=
  match findEntry s n with
  | none => ⟨false, s, [.acquireRead, .unlock]⟩
  | some info =>
    if !info.enabled then
      ⟨true, s, [.acquireRead, .unlock]⟩
    else if !info.module.isIPlugin then
      ⟨false, s, [.acquireRead, .unlock]⟩
    else
      match info.module.shutBeh with
      | .ok =>
        ⟨true, setEnabled s n false,
          [.acquireRead, .unlock, .callShutdown, .sigDisabled n]⟩
      | .throwStd =>
        ⟨false, s, [.acquireRead, .unlock, .callShutdown,
          .sigError n "Disable failed: exception from plugin"]⟩
      | .throwOther =>
        ⟨false, s, [.acquireRead, .unlock, .callShutdown,
          .sigError n "Unknown error during disable"]⟩

/-- Iteration of `unloadAllPlugins` over the snapshotted name list, calling
`unloadPlugin` for each name against the evolving registry. -/
def unloadAllGo : List String → State → State × List Ev
  | [], s => (s, [])
  | n :: rest, s =>
    let r := unloadPlugin s n
    let p := unloadAllGo rest r.state
    (p.1, r.events ++ p.2)

/-- Embedding of `PluginManager::unloadAllPlugins()`: snapshot the name
list under a read lock, then unload each name in snapshot order. -/
def unloadAllPlugins (s : State) : State × List Ev :=
  let p := unloadAllGo (s.map Prod.fst) s
  (p.1, [.acquireRead, .unlock] ++ p.2)

/-- Embedding of `PluginManager::availablePlugins()`: snapshot of the
registered names. -/
def availablePlugins (s : State) : List String :=
  s.map Prod.fst

/-- Embedding of `PluginManager::isPluginLoaded(name)`. -/
def isPluginLoaded (s : State) (n : String) : Bool :=
  containsName s n

/-- Embedding of `PluginManager::isPluginEnabled(name)`. -/
def isPluginEnabled (s : State) (n : String) : Bool :=
  match findEntry s n with
  | some i => i.enabled
  | none => false

/-- Embedding of `PluginManager::loadedPluginCount()`. -/
def loadedPluginCount (s : State) : Nat :=
  s.length

/-- Embedding of `PluginManager::enabledPluginCount()`. -/
def enabledPluginCount (s : State) : Nat :=
  (s.filter (fun p => p.2.enabled)).length

/-- Events that are calls into plugin code (instance creation, metadata
getters, lifecycle calls). -/
def pluginCallEv : Ev → Bool
  | .callInstance => true
  | .callName => true
  | .callVersion => true
  | .callInit => true
  | .callShutdown => true
  | _ => false

/-- Events that are lifecycle calls into plugin code
(`initialize()`/`shutdown()`). -/
def initShutEv : Ev → Bool
  | .callInit => true
  | .callShutdown => true
  | _ => false

/-- Events after which the registry lock is held. -/
def lockEnter : Ev → Bool
  | .acquireWrite => true
  | .acquireRead => true
  | .relock => true
  | _ => false

/-- Walks an event trace tracking whether the registry lock is held, and
reports whether any event selected by `isCall` occurs at a moment when the
lock is held. -/
def anyCallUnderLock (isCall : Ev → Bool) : Bool → List Ev → Bool
  | _, [] => false
  | held, e :: rest =>
    if isCall e && held then true
    else anyCallUnderLock isCall
      (if lockEnter e then true else if e = .unlock then false else held) rest

/-- Projection of an event to the name carried by a `pluginUnloaded`
signal, if it is one. -/
def unloadedName : Ev → Option String
  | .sigUnloaded n => some n
  | _ => none

/-! ### Helper lemmas on the registry list -/

theorem not_mem_fst_of_not_contains (s : State) (n : String)
    (h : containsName s n = false) : n ∉ s.map Prod.fst := by
  intro hmem
  rcases List.mem_map.mp hmem with ⟨p, hp, hq⟩
  have : containsName s n = true := by
    simp only [containsName, List.any_eq_true]
    exact ⟨p, hp, by simp [hq]⟩
  simp [this] at h

theorem findEntry_append_self (s : State) (n : String) (i : PluginInfo)
    (h : containsName s n = false) : findEntry (s ++ [(n, i)]) n = some i := by
  induction s with
  | nil => simp [findEntry]
  | cons p rest ih =>
    rcases p with ⟨k, j⟩
    simp only [containsName, List.any_cons, Bool.or_eq_false_iff,
      decide_eq_false_iff_not] at h
    simp only [List.cons_append, findEntry, if_neg h.1]
    exact ih (by simp only [containsName]; exact h.2)

theorem contains_append_self (s : State) (n : String) (i : PluginInfo) :
    containsName (s ++ [(n, i)]) n = true := by
  simp [containsName, List.any_append]

/-! ### Queries and degenerate inputs -/

/-- C9: in every registry state, `enabledPluginCount()` is at most
`loadedPluginCount()`, and `loadedPluginCount()` equals the number of
names returned by `availablePlugins()`.  The query operations are embedded
as pure functions of the state (they are `const` methods that only read
under a `QReadLocker`), so they leave the registry unchanged by
construction. -/
theorem query_count_invariants : ∀ s : State,
    enabledPluginCount s ≤ loadedPluginCount s ∧
    loadedPluginCount s = (availablePlugins s).length := by
  intro s
  constructor
  · exact List.length_filter_le _ s
  · simp [loadedPluginCount, availablePlugins]

/-- C10: `loadPlugin("")` returns false after emitting exactly one error
signal, with no module opened (no call events in the trace) and the
registry unchanged; `unloadPlugin("")` returns false with no events and
the registry unchanged. -/
theorem empty_name_rejected : ∀ (s : State) (m : Module),
    loadPlugin s "" m = ⟨false, s, [.sigError "" "Empty file path provided"]⟩ ∧
    unloadPlugin s "" = ⟨false, s, []⟩ := by
  intro s m
  constructor
  · simp [loadPlugin]
  · simp [unloadPlugin]

/-! ### Idempotence of enable/disable -/

/-- C6: `enablePlugin` on an already-enabled plugin returns true with the
registry unchanged and no call into the plugin (the trace holds only the
read-lock acquire and release); symmetrically for `disablePlugin` on an
already-disabled plugin. -/
theorem enable_disable_idempotent (s : State) (n : String) (info : PluginInfo)
    (hf : findEntry s n = some info) :
    (info.enabled = true →
      enablePlugin s n = ⟨true, s, [.acquireRead, .unlock]⟩) ∧
    (info.enabled = false →
      disablePlugin s n = ⟨true, s, [.acquireRead, .unlock]⟩) := by
  constructor
  · intro he
    simp [enablePlugin, hf, he]
  · intro he
    simp [disablePlugin, hf, he]

/-- Witness for C6 at a concrete registry: one enabled entry and one
disabled entry. -/
theorem enable_disable_idempotent_witness :
    enablePlugin
      [("a", ⟨"/a.so", true, ⟨true, true, false, "a", "1", .retTrue, .ok⟩⟩)]
      "a" =
      ⟨true,
       [("a", ⟨"/a.so", true, ⟨true, true, false, "a", "1", .retTrue, .ok⟩⟩)],
       [.acquireRead, .unlock]⟩ ∧
    disablePlugin
      [("b", ⟨"/b.so", false, ⟨true, true, false, "b", "1", .retTrue, .ok⟩⟩)]
      "b" =
      ⟨true,
       [("b", ⟨"/b.so", false, ⟨true, true, false, "b", "1", .retTrue, .ok⟩⟩)],
       [.acquireRead, .unlock]⟩ := by
  constructor
  · exact (enable_disable_idempotent
      [("a", ⟨"/a.so", true, ⟨true, true, false, "a", "1", .retTrue, .ok⟩⟩)]
      "a" ⟨"/a.so", true, ⟨true, true, false, "a", "1", .retTrue, .ok⟩⟩
      (by decide)).1 rfl
  · exact (enable_disable_idempotent
      [("b", ⟨"/b.so", false, ⟨true, true, false, "b", "1", .retTrue, .ok⟩⟩)]
      "b" ⟨"/b.so", false, ⟨true, true, false, "b", "1", .retTrue, .ok⟩⟩
      (by decide)).2 rfl

/-! ### Loading -/

theorem callInit_not_mem_validateEvents (m : Module) :
    Ev.callInit ∉ validateEvents m := by
  unfold validateEvents
  split <;> simp

/-- C2: a `loadPlugin` whose module reports a name already present in the
registry returns false, never calls the plugin's `initialize()`, and
leaves the registry unchanged; moreover every `loadPlugin` call preserves
uniqueness of registered names, so at most one record per name ever
exists. -/
theorem load_duplicate_rejected (s : State) (fp : String) (m : Module) :
    (containsName s m.name = true →
      (loadPlugin s fp m).ok = false ∧
      (loadPlugin s fp m).state = s ∧
      Ev.callInit ∉ (loadPlugin s fp m).events) ∧
    ((availablePlugins s).Nodup →
      (availablePlugins (loadPlugin s fp m).state).Nodup) := by
  constructor
  · intro hdup
    unfold loadPlugin
    split_ifs with h1 h2 h3 h4
    · exact ⟨rfl, rfl, by simp⟩
    · exact ⟨rfl, rfl, by simp⟩
    · exact ⟨rfl, rfl, by simp⟩
    · refine ⟨rfl, rfl, ?_⟩
      simp [callInit_not_mem_validateEvents m]
    · refine ⟨rfl, rfl, ?_⟩
      simp [callInit_not_mem_validateEvents m]
  · intro hnd
    unfold loadPlugin
    split_ifs with h1 h2 h3 h4 h5
    · exact hnd
    · exact hnd
    · exact hnd
    · exact hnd
    · exact hnd
    · cases m.initBeh with
      | retTrue =>
        simp only [availablePlugins, List.map_append, List.map_cons,
          List.map_nil]
        rw [List.nodup_append]
        refine ⟨hnd, List.nodup_singleton _, ?_⟩
        intro a ha hb
        simp only [List.mem_singleton] at hb
        subst hb
        exact not_mem_fst_of_not_contains s m.name
          (by simpa using h5) ha
      | retFalse => exact hnd
      | throwStd => exact hnd
      | throwOther => exact hnd

/-- Witness for C2: loading a module named "a" into a registry that
already holds "a" fails, calls no `initialize()`, and leaves the registry
unchanged. -/
theorem load_duplicate_rejected_witness :
    (loadPlugin
      [("a", ⟨"/a.so", true, ⟨true, true, false, "a", "1", .retTrue, .ok⟩⟩)]
      "/a2.so" ⟨true, true, false, "a", "2", .retTrue, .ok⟩).ok = false ∧
    (loadPlugin
      [("a", ⟨"/a.so", true, ⟨true, true, false, "a", "1", .retTrue, .ok⟩⟩)]
      "/a2.so" ⟨true, true, false, "a", "2", .retTrue, .ok⟩).state =
      [("a", ⟨"/a.so", true, ⟨true, true, false, "a", "1", .retTrue, .ok⟩⟩)] ∧
    Ev.callInit ∉ (loadPlugin
      [("a", ⟨"/a.so", true, ⟨true, true, false, "a", "1", .retTrue, .ok⟩⟩)]
      "/a2.so" ⟨true, true, false, "a", "2", .retTrue, .ok⟩).events :=
  (load_duplicate_rejected
    [("a", ⟨"/a.so", true, ⟨true, true, false, "a", "1", .retTrue, .ok⟩⟩)]
    "/a2.so" ⟨true, true, false, "a", "2", .retTrue, .ok⟩).1 (by decide)

/-- C3: when the module's `initialize()` does not return true (it returns
false or throws) and its name is not already registered, `loadPlugin`
returns false and leaves the registry exactly as it was — in particular
the name does not appear in `availablePlugins()`, `isPluginLoaded` stays
false, and no record retains the module handle opened for the attempt
(the local `QPluginLoader` unique_ptr is destroyed on return). -/
theorem load_init_failure (s : State) (fp : String) (m : Module)
    (hi : m.initBeh ≠ InitBeh.retTrue)
    (hfresh : containsName s m.name = false) :
    (loadPlugin s fp m).ok = false ∧
    (loadPlugin s fp m).state = s ∧
    m.name ∉ availablePlugins (loadPlugin s fp m).state ∧
    isPluginLoaded (loadPlugin s fp m).state m.name = false := by
  have hnm : m.name ∉ availablePlugins s :=
    not_mem_fst_of_not_contains s m.name hfresh
  unfold loadPlugin
  split_ifs with h1 h2 h3 h4 h5
  · exact ⟨rfl, rfl, hnm, by simp [isPluginLoaded, hfresh]⟩
  · exact ⟨rfl, rfl, hnm, by simp [isPluginLoaded, hfresh]⟩
  · exact ⟨rfl, rfl, hnm, by simp [isPluginLoaded, hfresh]⟩
  · exact ⟨rfl, rfl, hnm, by simp [isPluginLoaded, hfresh]⟩
  · simp [hfresh] at h5
  · cases hb : m.initBeh with
    | retTrue => exact absurd hb hi
    | retFalse => exact ⟨rfl, rfl, hnm, by simp [isPluginLoaded, hfresh]⟩
    | throwStd => exact ⟨rfl, rfl, hnm, by simp [isPluginLoaded, hfresh]⟩
    | throwOther => exact ⟨rfl, rfl, hnm, by simp [isPluginLoaded, hfresh]⟩

/-- Witness for C3: a fresh module whose `initialize()` returns false is
rejected and not registered. -/
theorem load_init_failure_witness :
    (loadPlugin [] "/f.so" ⟨true, true, false, "f", "1", .retFalse, .ok⟩).ok
      = false ∧
    (loadPlugin [] "/f.so"
      ⟨true, true, false, "f", "1", .retFalse, .ok⟩).state = [] ∧
    "f" ∉ availablePlugins (loadPlugin [] "/f.so"
      ⟨true, true, false, "f", "1", .retFalse, .ok⟩).state ∧
    isPluginLoaded (loadPlugin [] "/f.so"
      ⟨true, true, false, "f", "1", .retFalse, .ok⟩).state "f" = false :=
  load_init_failure [] "/f.so" ⟨true, true, false, "f", "1", .retFalse, .ok⟩
    (by decide) (by decide)

/-- C4: loading a valid module — non-empty path, loadable instance that
casts to `IPlugin`, non-empty reported name and version, a name not yet
registered, and an `initialize()` that returns true — returns true,
appends exactly one record keyed by the reported name with `enabled` set
to true, makes `isPluginLoaded` true for that name, and increments
`loadedPluginCount()` by exactly one. -/
theorem load_valid_registers (s : State) (fp : String) (m : Module)
    (hfp : ¬ fp = "") (hio : m.instanceOk = true) (hip : m.isIPlugin = true)
    (hmt : m.metaThrows = false) (hn : ¬ m.name = "") (hv : ¬ m.version = "")
    (hfresh : containsName s m.name = false)
    (hi : m.initBeh = InitBeh.retTrue) :
    (loadPlugin s fp m).ok = true ∧
    (loadPlugin s fp m).state = s ++ [(m.name, ⟨fp, true, m⟩)] ∧
    findEntry (loadPlugin s fp m).state m.name = some ⟨fp, true, m⟩ ∧
    isPluginLoaded (loadPlugin s fp m).state m.name = true ∧
    loadedPluginCount (loadPlugin s fp m).state = loadedPluginCount s + 1 := by
  have hval : validatePlugin m = true := by
    simp [validatePlugin, hmt, hn, hv]
  have hres : loadPlugin s fp m =
      ⟨true, s ++ [(m.name, ⟨fp, true, m⟩)],
        [.acquireWrite, .callInstance] ++ validateEvents m ++
        [.callName, .unlock, .callInit, .relock, .unlock,
         .sigLoaded m.name, .sigEnabled m.name]⟩ := by
    unfold loadPlugin
    rw [if_neg hfp, if_neg (by simp [hio]), if_neg (by simp [hip]),
      if_neg (by simp [hval]), if_neg (by simp [hfresh]), hi]
  refine ⟨by rw [hres], by rw [hres], ?_, ?_, ?_⟩
  · rw [hres]
    exact findEntry_append_self s m.name ⟨fp, true, m⟩ hfresh
  · rw [hres]
    exact contains_append_self s m.name ⟨fp, true, m⟩
  · rw [hres]
    simp [loadedPluginCount]

/-- Witness for C4: loading a valid fresh module "g" into the empty
registry registers exactly one enabled record. -/
theorem load_valid_registers_witness :
    (loadPlugin [] "/g.so" ⟨true, true, false, "g", "1", .retTrue, .ok⟩).ok
      = true ∧
    (loadPlugin [] "/g.so"
      ⟨true, true, false, "g", "1", .retTrue, .ok⟩).state =
      [] ++ [("g", ⟨"/g.so", true,
        ⟨true, true, false, "g", "1", .retTrue, .ok⟩⟩)] ∧
    findEntry (loadPlugin [] "/g.so"
      ⟨true, true, false, "g", "1", .retTrue, .ok⟩).state "g" =
      some ⟨"/g.so", true, ⟨true, true, false, "g", "1", .retTrue, .ok⟩⟩ ∧
    isPluginLoaded (loadPlugin [] "/g.so"
      ⟨true, true, false, "g", "1", .retTrue, .ok⟩).state "g" = true ∧
    loadedPluginCount (loadPlugin [] "/g.so"
      ⟨true, true, false, "g", "1", .retTrue, .ok⟩).state =
      loadedPluginCount [] + 1 :=
  load_valid_registers [] "/g.so" ⟨true, true, false, "g", "1", .retTrue, .ok⟩
    (by decide) rfl rfl rfl (by decide) (by decide) (by decide) rfl

/-! ### Unloading and the enable/disable effects -/

theorem findEntry_setEnabled_self (s : State) (n : String) (b : Bool)
    (info : PluginInfo) (hf : findEntry s n = some info) :
    findEntry (setEnabled s n b) n = some ⟨info.filePath, b, info.module⟩ := by
  induction s with
  | nil => simp [findEntry] at hf
  | cons p rest ih =>
    rcases p with ⟨k, j⟩
    by_cases hk : k = n
    · subst hk
      simp only [findEntry, if_pos rfl] at hf
      cases hf
      simp [setEnabled, findEntry]
    · simp only [findEntry, if_neg hk] at hf
      simp only [setEnabled, if_neg hk, findEntry]
      exact ih hf

theorem findEntry_setEnabled_other (s : State) (n k : String) (b : Bool)
    (hk : ¬ k = n) :
    findEntry (setEnabled s n b) k = findEntry s k := by
  induction s with
  | nil => rfl
  | cons p rest ih =>
    rcases p with ⟨k0, j⟩
    by_cases h0 : k0 = n
    · subst h0
      simp only [setEnabled, if_pos rfl, findEntry]
      rw [if_neg (fun h => hk h.symm), if_neg (fun h => hk h.symm)]
    · simp only [setEnabled, if_neg h0, findEntry]
      by_cases h1 : k0 = k
      · rw [if_pos h1, if_pos h1]
      · rw [if_neg h1, if_neg h1]
        exact ih

/-- C5 counterexample: the claim says `unloadPlugin` on a registered name
removes the entry and returns true even when `shutdown()` throws.  For a
plugin whose `shutdown()` throws a value not derived from
`std::exception`, the inner `catch (const std::exception&)` does not
match, the throw escapes to the outer `catch (...)`, and `unloadPlugin`
returns false with the registry entry still present. -/
theorem unload_throwing_shutdown_counterexample :
    (unloadPlugin
      [("p", ⟨"/p.so", true, ⟨true, true, false, "p", "1", .retTrue,
        .throwOther⟩⟩)] "p").ok = false ∧
    (unloadPlugin
      [("p", ⟨"/p.so", true, ⟨true, true, false, "p", "1", .retTrue,
        .throwOther⟩⟩)] "p").state =
      [("p", ⟨"/p.so", true, ⟨true, true, false, "p", "1", .retTrue,
        .throwOther⟩⟩)] ∧
    Ev.callShutdown ∈ (unloadPlugin
      [("p", ⟨"/p.so", true, ⟨true, true, false, "p", "1", .retTrue,
        .throwOther⟩⟩)] "p").events := by
  decide

/-- C5 (amended): `unloadPlugin` on a registered (non-empty) name calls
the plugin's `shutdown()`; when `shutdown()` returns or throws a
`std::exception` (which is caught and converted into an error signal),
the entry is removed and true is returned, so such a plugin cannot
prevent its own unload; when `shutdown()` throws a non-`std` value the
outer handler makes `unloadPlugin` return false with the registry
unchanged, so the failed unload leaves the entry intact and is
retryable. -/
theorem unload_best_effort (s : State) (n : String) (info : PluginInfo)
    (hn : ¬ n = "") (hf : findEntry s n = some info)
    (hip : info.module.isIPlugin = true) :
    Ev.callShutdown ∈ (unloadPlugin s n).events ∧
    (info.module.shutBeh ≠ ShutBeh.throwOther →
      (unloadPlugin s n).ok = true ∧
      (unloadPlugin s n).state = eraseEntry s n) ∧
    (info.module.shutBeh = ShutBeh.throwOther →
      (unloadPlugin s n).ok = false ∧
      (unloadPlugin s n).state = s ∧
      Ev.sigUnloaded n ∉ (unloadPlugin s n).events) := by
  have hres : unloadPlugin s n =
      (match info.module.shutBeh with
      | .ok =>
        ⟨true, eraseEntry s n,
          [.acquireWrite, .unlock, .callShutdown, .relock, .unlock,
           .sigUnloaded n]⟩
      | .throwStd =>
        ⟨true, eraseEntry s n,
          [.acquireWrite, .unlock, .callShutdown,
           .sigError n "Shutdown error: exception from plugin",
           .relock, .unlock, .sigUnloaded n]⟩
      | .throwOther =>
        ⟨false, s,
          [.acquireWrite, .unlock, .callShutdown,
           .sigError n "Unknown error during unloading"]⟩) := by
    unfold unloadPlugin
    rw [if_neg hn, hf]
    simp only [hip, Bool.not_true, Bool.false_eq_true, if_false]
  cases hb : info.module.shutBeh with
  | ok =>
    rw [hb] at hres
    rw [hres]
    exact ⟨by simp, fun _ => ⟨rfl, rfl⟩, fun hc => by cases hc⟩
  | throwStd =>
    rw [hb] at hres
    rw [hres]
    exact ⟨by simp, fun _ => ⟨rfl, rfl⟩, fun hc => by cases hc⟩
  | throwOther =>
    rw [hb] at hres
    rw [hres]
    exact ⟨by simp, fun hc => absurd rfl hc, fun _ => ⟨rfl, rfl, by simp⟩⟩

/-- Witness for C5 (amended): a registered plugin whose `shutdown()`
throws a `std::exception` is still unloaded successfully. -/
theorem unload_best_effort_witness :
    Ev.callShutdown ∈ (unloadPlugin
      [("r", ⟨"/r.so", true, ⟨true, true, false, "r", "1", .retTrue,
        .throwStd⟩⟩)] "r").events ∧
    (unloadPlugin
      [("r", ⟨"/r.so", true, ⟨true, true, false, "r", "1", .retTrue,
        .throwStd⟩⟩)] "r").ok = true ∧
    (unloadPlugin
      [("r", ⟨"/r.so", true, ⟨true, true, false, "r", "1", .retTrue,
        .throwStd⟩⟩)] "r").state =
      eraseEntry
        [("r", ⟨"/r.so", true, ⟨true, true, false, "r", "1", .retTrue,
          .throwStd⟩⟩)] "r" := by
  have h := unload_best_effort
    [("r", ⟨"/r.so", true, ⟨true, true, false, "r", "1", .retTrue,
      .throwStd⟩⟩)] "r"
    ⟨"/r.so", true, ⟨true, true, false, "r", "1", .retTrue, .throwStd⟩⟩
    (by decide) (by decide) rfl
  exact ⟨h.1, h.2.1 (by decide)⟩

/-- C7 counterexample: the claim says `disablePlugin` on an enabled
registered plugin calls `shutdown()` and flips the enabled flag to false.
For a plugin whose `shutdown()` throws a `std::exception`, the flag store
after the call is never reached: `disablePlugin` returns false and the
plugin remains enabled. -/
theorem disable_throwing_shutdown_counterexample :
    Ev.callShutdown ∈ (disablePlugin
      [("q", ⟨"/q.so", true, ⟨true, true, false, "q", "1", .retTrue,
        .throwStd⟩⟩)] "q").events ∧
    (disablePlugin
      [("q", ⟨"/q.so", true, ⟨true, true, false, "q", "1", .retTrue,
        .throwStd⟩⟩)] "q").ok = false ∧
    isPluginEnabled (disablePlugin
      [("q", ⟨"/q.so", true, ⟨true, true, false, "q", "1", .retTrue,
        .throwStd⟩⟩)] "q").state "q" = true := by
  decide

/-- C7 (amended): for an enabled registered plugin, `disablePlugin` calls
`shutdown()` and, when `shutdown()` returns normally, flips only the
enabled flag to false (a throwing `shutdown()` leaves the flag true and
returns false); for a disabled registered plugin, `enablePlugin` calls
`initialize()` and flips the flag to true exactly when it returns true.
In every case the entry stays present under its name and its `filePath`,
module handle and instance are unchanged, and entries under other names
are untouched. -/
theorem enable_disable_effects (s : State) (n : String) (info : PluginInfo)
    (hf : findEntry s n = some info) (hip : info.module.isIPlugin = true) :
    (info.enabled = true →
      Ev.callShutdown ∈ (disablePlugin s n).events ∧
      (info.module.shutBeh = ShutBeh.ok →
        (disablePlugin s n).ok = true ∧
        (disablePlugin s n).state = setEnabled s n false) ∧
      (info.module.shutBeh ≠ ShutBeh.ok →
        (disablePlugin s n).ok = false ∧ (disablePlugin s n).state = s)) ∧
    (info.enabled = false →
      Ev.callInit ∈ (enablePlugin s n).events ∧
      (info.module.initBeh = InitBeh.retTrue →
        (enablePlugin s n).ok = true ∧
        (enablePlugin s n).state = setEnabled s n true) ∧
      (info.module.initBeh ≠ InitBeh.retTrue →
        (enablePlugin s n).ok = false ∧ (enablePlugin s n).state = s)) ∧
    (∀ b : Bool, findEntry (setEnabled s n b) n =
      some ⟨info.filePath, b, info.module⟩) ∧
    (∀ (b : Bool) (k : String), ¬ k = n →
      findEntry (setEnabled s n b) k = findEntry s k) := by
  refine ⟨?_, ?_, fun b => findEntry_setEnabled_self s n b info hf,
    fun b k hk => findEntry_setEnabled_other s n k b hk⟩
  · intro he
    cases hb : info.module.shutBeh with
    | ok =>
      refine ⟨?_, fun _ => ⟨?_, ?_⟩, fun hc => absurd rfl hc⟩ <;>
        simp [disablePlugin, hf, he, hip, hb]
    | throwStd =>
      refine ⟨?_, ?_, fun _ => ⟨?_, ?_⟩⟩ <;>
        simp [disablePlugin, hf, he, hip, hb]
    | throwOther =>
      refine ⟨?_, ?_, fun _ => ⟨?_, ?_⟩⟩ <;>
        simp [disablePlugin, hf, he, hip, hb]
  · intro he
    cases hb : info.module.initBeh with
    | retTrue =>
      refine ⟨?_, fun _ => ⟨?_, ?_⟩, fun hc => absurd rfl hc⟩ <;>
        simp [enablePlugin, hf, he, hip, hb]
    | retFalse =>
      refine ⟨?_, ?_, fun _ => ⟨?_, ?_⟩⟩ <;>
        simp [enablePlugin, hf, he, hip, hb]
    | throwStd =>
      refine ⟨?_, ?_, fun _ => ⟨?_, ?_⟩⟩ <;>
        simp [enablePlugin, hf, he, hip, hb]
    | throwOther =>
      refine ⟨?_, ?_, fun _ => ⟨?_, ?_⟩⟩ <;>
        simp [enablePlugin, hf, he, hip, hb]

/-- Witness for C7 (amended): disabling an enabled plugin with a normal
`shutdown()` flips only the flag; enabling it back calls `initialize()`. -/
theorem enable_disable_effects_witness :
    ((disablePlugin
      [("w", ⟨"/w.so", true, ⟨true, true, false, "w", "1", .retTrue,
        .ok⟩⟩)] "w").ok = true ∧
    (disablePlugin
      [("w", ⟨"/w.so", true, ⟨true, true, false, "w", "1", .retTrue,
        .ok⟩⟩)] "w").state =
      setEnabled
        [("w", ⟨"/w.so", true, ⟨true, true, false, "w", "1", .retTrue,
          .ok⟩⟩)] "w" false) ∧
    findEntry
      (setEnabled
        [("w", ⟨"/w.so", true, ⟨true, true, false, "w", "1", .retTrue,
          .ok⟩⟩)] "w" false) "w" =
      some ⟨"/w.so", false, ⟨true, true, false, "w", "1", .retTrue, .ok⟩⟩ := by
  have h := enable_disable_effects
    [("w", ⟨"/w.so", true, ⟨true, true, false, "w", "1", .retTrue, .ok⟩⟩)]
    "w" ⟨"/w.so", true, ⟨true, true, false, "w", "1", .retTrue, .ok⟩⟩
    (by decide) rfl
  exact ⟨(h.1 rfl).2.1 rfl, h.2.2.1 false⟩

/-! ### Bulk unload -/

theorem unload_head (k : String) (i : PluginInfo) (rest : State)
    (hk : ¬ k = "") (hip : i.module.isIPlugin = true)
    (hsb : i.module.shutBeh ≠ ShutBeh.throwOther) :
    (unloadPlugin ((k, i) :: rest) k).ok = true ∧
    (unloadPlugin ((k, i) :: rest) k).state = rest ∧
    (unloadPlugin ((k, i) :: rest) k).events.filterMap unloadedName
      = [k] := by
  cases hb : i.module.shutBeh with
  | ok =>
    refine ⟨?_, ?_, ?_⟩ <;>
      simp [unloadPlugin, findEntry, eraseEntry, hk, hip, hb, unloadedName]
  | throwStd =>
    refine ⟨?_, ?_, ?_⟩ <;>
      simp [unloadPlugin, findEntry, eraseEntry, hk, hip, hb, unloadedName]
  | throwOther => exact absurd hb hsb

theorem unloadAllGo_clears (s : State)
    (hgood : ∀ p ∈ s, ¬ p.1 = "" ∧ p.2.module.isIPlugin = true ∧
      p.2.module.shutBeh ≠ ShutBeh.throwOther) :
    (unloadAllGo (s.map Prod.fst) s).1 = [] ∧
    (unloadAllGo (s.map Prod.fst) s).2.filterMap unloadedName
      = s.map Prod.fst := by
  induction s with
  | nil => exact ⟨rfl, rfl⟩
  | cons p rest ih =>
    rcases p with ⟨k, i⟩
    have hgk := hgood (k, i) (List.mem_cons_self _ _)
    have h1 := unload_head k i rest hgk.1 hgk.2.1 hgk.2.2
    have ihr := ih (fun q hq => hgood q (List.mem_cons_of_mem _ hq))
    simp only [List.map_cons, unloadAllGo]
    rw [h1.2.1]
    constructor
    · exact ihr.1
    · rw [List.filterMap_append, h1.2.2, ihr.2]
      rfl

/-- C8 counterexample: the claim says `unloadAllPlugins()` on a registry
holding N plugins always leaves `loadedPluginCount()` at 0 with exactly N
`pluginUnloaded` events.  With one registered plugin whose `shutdown()`
throws a non-`std` value, the single `unloadPlugin` call fails (outer
`catch (...)`), so one plugin remains loaded and no `pluginUnloaded`
event is emitted. -/
theorem unload_all_counterexample :
    loadedPluginCount (unloadAllPlugins
      [("p", ⟨"/p.so", true, ⟨true, true, false, "p", "1", .retTrue,
        .throwOther⟩⟩)]).1 = 1 ∧
    (unloadAllPlugins
      [("p", ⟨"/p.so", true, ⟨true, true, false, "p", "1", .retTrue,
        .throwOther⟩⟩)]).2.filterMap unloadedName = [] := by
  decide

/-- C8 (amended): on any registry whose records satisfy the invariants of
states reachable through `loadPlugin` — non-empty names, instances that
cast to `IPlugin` — and whose plugins do not throw non-`std` values from
`shutdown()`, `unloadAllPlugins()` leaves `loadedPluginCount()` at 0 and
emits the `pluginUnloaded` events exactly for the snapshot of registered
names; when the names are unique (as the registry guarantees), each name
is unloaded exactly once. -/
theorem unload_all_clears (s : State)
    (hgood : ∀ p ∈ s, ¬ p.1 = "" ∧ p.2.module.isIPlugin = true ∧
      p.2.module.shutBeh ≠ ShutBeh.throwOther) :
    loadedPluginCount (unloadAllPlugins s).1 = 0 ∧
    (unloadAllPlugins s).2.filterMap unloadedName = availablePlugins s ∧
    ((availablePlugins s).Nodup → ∀ n ∈ availablePlugins s,
      ((unloadAllPlugins s).2.filterMap unloadedName).count n = 1) := by
  have h := unloadAllGo_clears s hgood
  refine ⟨?_, ?_, ?_⟩
  · show ((unloadAllGo (s.map Prod.fst) s).1).length = 0
    rw [h.1]
    rfl
  · show ([Ev.acquireRead, Ev.unlock] ++
      (unloadAllGo (s.map Prod.fst) s).2).filterMap unloadedName
      = availablePlugins s
    rw [List.filterMap_append, h.2]
    rfl
  · intro hnd n hn
    have he : (unloadAllPlugins s).2.filterMap unloadedName
        = availablePlugins s := by
      show ([Ev.acquireRead, Ev.unlock] ++
        (unloadAllGo (s.map Prod.fst) s).2).filterMap unloadedName
        = availablePlugins s
      rw [List.filterMap_append, h.2]
      rfl
    rw [he]
    exact List.count_eq_one_of_mem hnd hn

/-- Witness for C8 (amended): two well-behaved plugins are both unloaded,
leaving the registry empty, with one `pluginUnloaded` event each. -/
theorem unload_all_clears_witness :
    loadedPluginCount (unloadAllPlugins
      [("a", ⟨"/a.so", true, ⟨true, true, false, "a", "1", .retTrue, .ok⟩⟩),
       ("b", ⟨"/b.so", true, ⟨true, true, false, "b", "1", .retTrue,
         .throwStd⟩⟩)]).1 = 0 ∧
    (unloadAllPlugins
      [("a", ⟨"/a.so", true, ⟨true, true, false, "a", "1", .retTrue, .ok⟩⟩),
       ("b", ⟨"/b.so", true, ⟨true, true, false, "b", "1", .retTrue,
         .throwStd⟩⟩)]).2.filterMap unloadedName =
      availablePlugins
        [("a", ⟨"/a.so", true, ⟨true, true, false, "a", "1", .retTrue, .ok⟩⟩),
         ("b", ⟨"/b.so", true, ⟨true, true, false, "b", "1", .retTrue,
           .throwStd⟩⟩)] := by
  have h := unload_all_clears
    [("a", ⟨"/a.so", true, ⟨true, true, false, "a", "1", .retTrue, .ok⟩⟩),
     ("b", ⟨"/b.so", true, ⟨true, true, false, "b", "1", .retTrue,
       .throwStd⟩⟩)]
    (by decide)
  exact ⟨h.1, h.2.1⟩

/-! ### Lock discipline -/

theorem anyCallUnderLock_validate (m : Module) (held : Bool)
    (rest : List Ev) :
    anyCallUnderLock initShutEv held (validateEvents m ++ rest)
      = anyCallUnderLock initShutEv held rest := by
  unfold validateEvents
  split <;> simp [anyCallUnderLock, initShutEv, lockEnter]

/-- C1 counterexample: the claim says every call into the plugin instance
(instance creation, `name()`, `version()`, `initialize()`, `shutdown()`)
occurs only while the registry lock is released.  In `loadPlugin` the
`QWriteLocker` is constructed before `loader->instance()`, and
`plugin->name()`/`plugin->version()` (validation and the duplicate check)
also run under it: the trace of a successful load contains plugin calls
made while the write lock is held. -/
theorem plugin_call_under_lock_counterexample :
    anyCallUnderLock pluginCallEv false
      (loadPlugin [] "/plugins/alpha.so"
        ⟨true, true, false, "alpha", "1.0", .retTrue, .ok⟩).events
      = true := by
  decide

/-- C1 (amended): the lifecycle calls `initialize()` and `shutdown()` are
always performed while the registry lock is released, in all four public
operations (the lock is dropped before the call; `loadPlugin` and
`unloadPlugin` then re-acquire it to commit, while
`enablePlugin`/`disablePlugin` store the flag without re-acquiring).  The
other calls into plugin code during `loadPlugin` — instance creation,
`name()` and `version()` — do run under the write lock, as the
counterexample shows. -/
theorem lifecycle_calls_outside_lock :
    ∀ (s : State) (fp : String) (m : Module) (n1 n2 n3 : String),
    anyCallUnderLock initShutEv false (loadPlugin s fp m).events = false ∧
    anyCallUnderLock initShutEv false (unloadPlugin s n1).events = false ∧
    anyCallUnderLock initShutEv false (enablePlugin s n2).events = false ∧
    anyCallUnderLock initShutEv false (disablePlugin s n3).events = false := by
  intro s fp m n1 n2 n3
  refine ⟨?_, ?_, ?_, ?_⟩
  · unfold loadPlugin
    repeat' split
    all_goals
      simp [anyCallUnderLock, initShutEv, lockEnter,
        anyCallUnderLock_validate]
  · unfold unloadPlugin
    repeat' split
    all_goals simp [anyCallUnderLock, initShutEv, lockEnter]
  · unfold enablePlugin
    repeat' split
    all_goals simp [anyCallUnderLock, initShutEv, lockEnter]
  · unfold disablePlugin
    repeat' split
    all_goals simp [anyCallUnderLock, initShutEv, lockEnter]

end DarkPlay
